import Mathlib

/-!
Verification of the Lektrico wifi client library (lektricowifi).

The development shallowly embeds the request/normalization layer of
`src/lektricowifi/lektricowifi.py` and the acknowledgement helper of
`tests/test_online_devices.py`: JSON-like Python values, Python `dict`
operations, the transport handler `Device._request` (over an abstract
transport event), the read pipelines `device_info` / `device_config`
instrumented with the list of RPC endpoints they request, and the pure
decoders `_put_readable_format` and `_interpret_answer`.
-/

namespace Lektrico

/-- JSON-like Python values as they appear in the device's RPC payloads:
booleans, integers, strings, lists and objects. -/
inductive PyVal where
  | bool (b : Bool)
  | int (i : Int)
  | str (s : String)
  | list (xs : List PyVal)
  | dict (entries : List (String × PyVal))

/-- A Python `dict` with string keys, as an association list in insertion
order (keys unique whenever built by `dictSet`/`dictUpdate`). -/
abbrev PyDict := List (String × PyVal)

/-- `d[k]` lookup, returning the first binding of `k`. -/
def dictGet (d : PyDict) (k : String) : Option PyVal :=
  match d with
  | [] => Option.none
  | (k', v) :: rest => if k' = k then some v else dictGet rest k

/-- `k in d`. -/
def dictContains (d : PyDict) (k : String) : Bool :=
  (dictGet d k).isSome

/-- `d[k] = v`: replace the binding of `k` in place if present, else append
a new binding at the end (Python insertion-order semantics). -/
def dictSet (d : PyDict) (k : String) (v : PyVal) : PyDict :=
  match d with
  | [] => [(k, v)]
  | (k', v') :: rest => if k' = k then (k', v) :: rest else (k', v') :: dictSet rest k v

/-- `d.update(other)` / `dict(d, **other)`: apply every binding of `other`
to `d`, in order, later bindings overriding earlier ones. -/
def dictUpdate (d other : PyDict) : PyDict :=
  other.foldl (fun acc kv => dictSet acc kv.1 kv.2) d

/-- `d.pop(k)` (the code only pops after an `in` check, so the returned
value is unused): remove every binding of `k`. -/
def dictPop (d : PyDict) (k : String) : PyDict :=
  d.filter (fun kv => kv.1 ≠ k)

/-- The keys of a dict, in order. -/
def dictKeys (d : PyDict) : List String :=
  d.map Prod.fst

/-- The Python exceptions the embedded code can raise.
`deviceConnectionError` and `deviceError` are the library's own classes
(`DeviceConnectionError`, `DeviceError`); `httpStatusError` is
`httpx.HTTPStatusError` as raised by `response.raise_for_status()`; the
rest are builtin Python exceptions. -/
inductive PyErr where
  | deviceConnectionError (msg : String)
  | deviceError (msg : String)
  | httpStatusError (status : Nat)
  | jsonDecodeError
  | typeError (msg : String)
  | keyError (k : String)
  | indexError
  | valueError (msg : String)
  | attributeError (msg : String)
  deriving Repr, DecidableEq

/-- Python truthiness of a value, as used by `if data["has_active_errors"]:`. -/
def pyTruthy : PyVal → Bool
  | .bool b => b
  | .int i => i != 0
  | .str s => s ≠ ""
  | .list [] => false
  | .list (_ :: _) => true
  | .dict [] => false
  | .dict (_ :: _) => true

/-- Decimal value of a digit character, if it is one. -/
def charDigit (c : Char) : Option Nat :=
  if '0' ≤ c ∧ c ≤ '9' then some (c.toNat - '0'.toNat) else Option.none

/-- Parse a run of decimal digits into the accumulated value. -/
def parseDigitsAux : List Char → Nat → Option Nat
  | [], acc => some acc
  | c :: cs, acc =>
      match charDigit c with
      | some dv => parseDigitsAux cs (acc * 10 + dv)
      | Option.none => Option.none

/-- Parse Python's `int(...)` decimal notation as it occurs in these
payloads: an optional leading minus followed by at least one digit
(whitespace, `+` signs and digit-group underscores do not occur here). -/
def parseIntChars : List Char → Option Int
  | [] => Option.none
  | '-' :: cs =>
      match cs with
      | [] => Option.none
      | _ :: _ => (parseDigitsAux cs 0).map (fun n => -(n : Int))
  | cs => (parseDigitsAux cs 0).map (fun n => (n : Int))

/-- Python `int(v)` on the payload values in use: an int is itself, a bool
counts as 0/1, a decimal string (optionally with a leading minus) parses,
any other string raises `ValueError`, a list or dict raises `TypeError`. -/
def pyInt : PyVal → Except PyErr Int
  | .int i => .ok i
  | .bool b => .ok (if b then 1 else 0)
  | .str s =>
      match parseIntChars s.data with
      | some i => .ok i
      | Option.none => .error (.valueError s)
  | .list _ => .error (.typeError "int() argument must not be a list")
  | .dict _ => .error (.typeError "int() argument must not be a dict")

/-- Python list subscription `xs[i]`: non-negative indices count from the
front, negative indices from the back; `none` stands for `IndexError`. -/
def pyIndex {α : Type} (xs : List α) (i : Int) : Option α :=
  let j : Int := if i < 0 then (xs.length : Int) + i else i
  if 0 ≤ j then xs.get? j.toNat else Option.none

/-- Python `==` against the literal `True`, as in `answer["result"] == True`:
`True == True`, and `1 == True` because bools compare numerically with ints;
strings, lists and dicts never equal `True`. -/
def pyEqTrue : PyVal → Bool
  | .bool b => b
  | .int i => i == 1
  | _ => false

/-- Character-list prefix test: does the first list start with the second? -/
def listHasPrefix : List Char → List Char → Bool
  | _, [] => true
  | [], _ :: _ => false
  | c :: cs, p :: ps => c == p && listHasPrefix cs ps

/-- Character-list substring test: does the first list contain the second
as a contiguous run? -/
def listContainsSub : List Char → List Char → Bool
  | [], needle => listHasPrefix [] needle
  | c :: cs, needle => listHasPrefix (c :: cs) needle || listContainsSub cs needle

/-- Python `s.startswith(p)` on the strings' characters. -/
def strStartsWith (s p : String) : Bool :=
  listHasPrefix s.data p.data

/-- Python substring test `needle in hay`, as in
`"application/json" not in content_type`. -/
def strContainsSub (hay needle : String) : Bool :=
  listContainsSub hay.data needle.data

/-- An `httpx` response as far as `Device._request` inspects it: the HTTP
status code, the `Content-Type` header (`""` when absent, matching the
`headers.get("Content-Type", "")` default), the raw body text, and the
result of JSON-decoding the body (`none` when `response.json()` would
raise a decode error). -/
structure HttpResponse where
  status : Nat
  contentType : String
  body : String
  json : Option PyVal

/-- What the transport produces for one request: the exceptions the `try`
block can see (`asyncio.TimeoutError` fired by `async_timeout.timeout`,
`httpx.ConnectError`, `httpx.ConnectTimeout`, `socket.gaierror`), or an
HTTP response. -/
inductive TransportEvent where
  | timeoutError
  | connectError
  | connectTimeout
  | gaierror
  | response (r : HttpResponse)

namespace Device

/-- Shallow embedding of `Device._request` (lektricowifi.py lines 312-365)
on one transport event.  The `try` block converts `asyncio.TimeoutError`
and the connect-level failures into `DeviceConnectionError`;
`response.raise_for_status()` raises `httpx.HTTPStatusError` on a non-2xx
status, which is in none of the `except` clauses and therefore escapes
unconverted.  On a 2xx response whose `Content-Type` lacks
`application/json`, the code runs `text = await response.text()`; in
httpx, `Response.text` is a `str` property, so calling it raises
`TypeError: 'str' object is not callable` before the `DeviceError` on the
next line can be constructed.  Otherwise `response.json()` is decoded (the
decoded value is never a coroutine, so the `inspect.iscoroutine` branch
returns it unchanged).  Lazy client-session acquisition (lines 328-330)
has no effect on the response and is not modelled. -/
def request (ev : TransportEvent) : Except PyErr PyVal :=
  match ev with
  | .timeoutError =>
      .error (.deviceConnectionError
        "Timeout occurred while connecting to Lektrico device")
  | .connectError =>
      .error (.deviceConnectionError
        "Error occurred while communicating with Lektrico device")
  | .connectTimeout =>
      .error (.deviceConnectionError
        "Error occurred while communicating with Lektrico device")
  | .gaierror =>
      .error (.deviceConnectionError
        "Error occurred while communicating with Lektrico device")
  | .response r =>
      if 200 ≤ r.status ∧ r.status < 300 then
        if strContainsSub r.contentType "application/json" then
          match r.json with
          | some v => .ok v
          | Option.none => .error .jsonDecodeError
        else
          .error (.typeError "'str' object is not callable")
      else
        .error (.httpStatusError r.status)

end Device

/-- The device seen as a map from GET endpoint name (the `uri` passed to
`Device._request_get`, e.g. `"charger_info.get"`) to a transport event.
`_request_get` prefixes the fixed `http://<host>/rpc/`, which is injective
in the endpoint name, so keying the oracle on the endpoint loses nothing. -/
abbrev Oracle := String → TransportEvent

/-- `await self._request_get(uri)` followed by the dict use the callers
make of the result: decode the body and expect a JSON object (a non-object
body would fail at the first subscript / `dict(...)` use).  Appends the
endpoint to the trace of requested endpoints. -/
def requestGetDict (o : Oracle) (uri : String) (tr : List String) :
    Except PyErr PyDict × List String :=
  match Device.request (o uri) with
  | .ok (.dict es) => (.ok es, tr ++ [uri])
  | .ok _ => (.error (.typeError "response body is not an object"), tr ++ [uri])
  | .error e => (.error e, tr ++ [uri])

/-- `d[k]` as an expression: `KeyError` when the key is absent. -/
def getKey (d : PyDict) (k : String) : Except PyErr PyVal :=
  match dictGet d k with
  | some v => .ok v
  | Option.none => .error (.keyError k)

namespace Device

/-- `Device.TYPE_1P7K` (line 34). -/
def TYPE_1P7K : String := "1p7k"

/-- `Device.TYPE_3P22K` (line 35). -/
def TYPE_3P22K : String := "3p22k"

/-- `Device.TYPE_EM` (line 36). -/
def TYPE_EM : String := "em"

/-- `Device.TYPE_3EM` (line 37). -/
def TYPE_3EM : String := "3em"

/-- `Device.CURRENT_LIMIT_REASON` (lines 39-41): the fixed ordered table of
limit-reason labels. -/
def CURRENT_LIMIT_REASON : List String :=
  ["no_limit", "installation_current",
   "user_limit", "dynamic_limit", "schedule",
   "em_offline", "em", "ocpp"]

/-- The all-false fault set synthesized locally when the merged status has
no active errors (`device_info`, lines 65-76). -/
def allFalseFaultSet : PyDict :=
  [("state_e_activated", .bool false),
   ("overtemp", .bool false),
   ("critical_temp", .bool false),
   ("overcurrent", .bool false),
   ("meter_fault", .bool false),
   ("undervoltage_error", .bool false),
   ("overvoltage_error", .bool false),
   ("rcd_error", .bool false),
   ("cp_diode_failure", .bool false),
   ("contactor_failure", .bool false)]

/-- The ten fault-flag keys of the synthesized fault set. -/
def faultKeys : List String :=
  ["state_e_activated", "overtemp", "critical_temp", "overcurrent",
   "meter_fault", "undervoltage_error", "overvoltage_error", "rcd_error",
   "cp_diode_failure", "contactor_failure"]

/-- Shallow embedding of `Device._put_readable_format` (lines 368-386):
convert a raw charger-state code into its readable name; any value that
matches none of the known codes is returned verbatim (the `==` chain
compares against string literals, so a non-string value falls through to
the final `else`). -/
def _put_readable_format (_state : PyVal) : PyVal :=
  match _state with
  | .str s =>
      if s = "A" then .str "available"
      else if s = "B" then .str "connected"
      else if s = "B_AUTH" then .str "need_auth"
      else if s = "B_PAUSE" then .str "paused"
      else if s = "C" ∨ s = "D" then .str "charging"
      else if s = "E" ∨ s = "F" then .str "error"
      else if s = "OTA" then .str "updating_firmware"
      else .str s
  | v => v

/-- Shallow embedding of the limit-reason decode of `device_info`
(lines 89-93): a missing `current_limit_reason` defaults to
`CURRENT_LIMIT_REASON[0]`; a present one is converted with `int(...)` and
used to subscript `CURRENT_LIMIT_REASON` (Python subscripting: negative
indices count from the back, other out-of-range indices raise
`IndexError`). -/
def decodeLimitReason (data : PyDict) : Except PyErr PyDict :=
  if dictContains data "current_limit_reason" = false then
    match pyIndex CURRENT_LIMIT_REASON 0 with
    | some s => .ok (dictSet data "current_limit_reason" (.str s))
    | Option.none => .error .indexError
  else
    match getKey data "current_limit_reason" with
    | .error e => .error e
    | .ok v =>
      match pyInt v with
      | .error e => .error e
      | .ok i =>
        match pyIndex CURRENT_LIMIT_REASON i with
        | some s => .ok (dictSet data "current_limit_reason" (.str s))
        | Option.none => .error .indexError

/-- Shallow embedding of the compatibility step of `device_info`
(lines 89-100): decode `current_limit_reason` (defaulting the missing
field), then backfill `state_e_activated` from the legacy
`state_machine_e_activated` key and default a missing `relay_mode` to
`-1`. -/
def backfillStep (data : PyDict) : Except PyErr PyDict :=
  match decodeLimitReason data with
  | .error e => .error e
  | .ok data =>
    match
      (if dictContains data "state_e_activated" = false then
        match getKey data "state_machine_e_activated" with
        | .error e => .error e
        | .ok v => .ok (dictSet data "state_e_activated" v)
      else .ok data : Except PyErr PyDict)
    with
    | .error e => .error e
    | .ok data =>
      .ok (if dictContains data "relay_mode" = false then
             dictSet data "relay_mode" (.int (-1))
           else data)

/-- The fault-set stage of `device_info` (lines 62-77): if the merged
status is truthy on `has_active_errors`, fetch `active_errors.get` and
merge it in; otherwise merge in the locally synthesized all-false fault
set without a request. -/
def faultStage (o : Oracle) (data : PyDict) (tr : List String) :
    Except PyErr PyDict × List String :=
  match getKey data "has_active_errors" with
  | .error e => (.error e, tr)
  | .ok hae =>
    if pyTruthy hae then
      match requestGetDict o "active_errors.get" tr with
      | (.error e, tr) => (.error e, tr)
      | (.ok data_new, tr) => (.ok (dictUpdate data data_new), tr)
    else
      (.ok (dictUpdate data allFalseFaultSet), tr)

/-- The stages of the charger branch of `device_info` after the fault
set (lines 79-100): discard a stale `dynamic_current` before fetching and
merging `dynamic_current.get`, decode the charger state into
`charger_state`, and apply `backfillStep`. -/
def chargerTail (o : Oracle) (data : PyDict) (tr : List String) :
    Except PyErr PyDict × List String :=
  let data := if dictContains data "dynamic_current" then
                dictPop data "dynamic_current"
              else data
  match requestGetDict o "dynamic_current.get" tr with
  | (.error e, tr) => (.error e, tr)
  | (.ok data_new, tr) =>
  let data := dictUpdate data data_new
  match getKey data "extended_charger_state" with
  | .error e => (.error e, tr)
  | .ok st =>
  let data := dictSet data "charger_state" (_put_readable_format st)
  (backfillStep data, tr)

/-- Shallow embedding of the charger branch of `Device.device_info`
(lines 57-100): fetch and merge `charger_info.get` and `app_config.get`
(app-config keys winning), run the fault-set stage, then `chargerTail`.
The final `InfoForCharger(**data, ...).model_dump()` construction
(lines 102-109) only repackages the dict and is not modelled; every claim
concerns the stages before it.  The second component is the list of
endpoints requested, in order. -/
def chargerPipeline (o : Oracle) (tr : List String) :
    Except PyErr PyDict × List String :=
  match requestGetDict o "charger_info.get" tr with
  | (.error e, tr) => (.error e, tr)
  | (.ok data_info, tr) =>
  match requestGetDict o "app_config.get" tr with
  | (.error e, tr) => (.error e, tr)
  | (.ok data_dyn, tr) =>
  match faultStage o (dictUpdate data_info data_dyn) tr with
  | (.error e, tr) => (.error e, tr)
  | (.ok data, tr) =>
  chargerTail o data tr

/-- Shallow embedding of the energy-meter branch of `Device.device_info`
(lines 110-129): fetch and merge `Meter_info.Get`, `App_config.Get` and
`Sw_version.Get`, later responses overriding earlier ones.  The final
`InfoForM2W(...)` construction is not modelled (no claim concerns it). -/
def meterPipeline (o : Oracle) (tr : List String) :
    Except PyErr PyDict × List String :=
  match requestGetDict o "Meter_info.Get" tr with
  | (.error e, tr) => (.error e, tr)
  | (.ok data_info, tr) =>
  match requestGetDict o "App_config.Get" tr with
  | (.error e, tr) => (.error e, tr)
  | (.ok data_dyn, tr) =>
  match requestGetDict o "Sw_version.Get" tr with
  | (.error e, tr) => (.error e, tr)
  | (.ok data_new, tr) =>
  (.ok (dictUpdate (dictUpdate data_info data_dyn) data_new), tr)

/-- Shallow embedding of `Device.device_info` (lines 48-131): dispatch on
the `device_type` argument; any type other than the four family tags
raises `DeviceError("Unknown device_id")` before any request is made. -/
def device_info (o : Oracle) (device_type : String) (tr : List String) :
    Except PyErr PyDict × List String :=
  if device_type = TYPE_1P7K ∨ device_type = TYPE_3P22K then
    chargerPipeline o tr
  else if device_type = TYPE_EM ∨ device_type = TYPE_3EM then
    meterPipeline o tr
  else
    (.error (.deviceError "Unknown device_id"), tr)

/-- Shallow embedding of `Device.device_config` (lines 133-157): fetch
`Device_id.Get`, dispatch on the `device_id` string by `.startswith`
prefix tests against `1p7k`, `3p22k`, `m2w_81` and `m2w_83`, fetch the
family's configuration endpoint, and tag the result with the family
(`dict(data_type, **data)`).  A `device_id` matching no prefix raises
`DeviceError("Unknown device_id")`; a non-string `device_id` would fail
at `.startswith` with `AttributeError`.  The final
`Settings(**data).model_dump()` construction (line 157) only repackages
the dict and is not modelled. -/
def device_config (o : Oracle) (tr : List String) :
    Except PyErr PyDict × List String :=
  match requestGetDict o "Device_id.Get" tr with
  | (.error e, tr) => (.error e, tr)
  | (.ok data, tr) =>
  match dictGet data "device_id" with
  | Option.none => (.error (.keyError "device_id"), tr)
  | some (.str _device_id) =>
    if strStartsWith _device_id TYPE_1P7K then
      match requestGetDict o "charger_config.get" tr with
      | (.error e, tr) => (.error e, tr)
      | (.ok cfg, tr) => (.ok (dictUpdate [("type", .str TYPE_1P7K)] cfg), tr)
    else if strStartsWith _device_id TYPE_3P22K then
      match requestGetDict o "charger_config.get" tr with
      | (.error e, tr) => (.error e, tr)
      | (.ok cfg, tr) => (.ok (dictUpdate [("type", .str TYPE_3P22K)] cfg), tr)
    else if strStartsWith _device_id "m2w_81" then
      match requestGetDict o "M2w_config.Get" tr with
      | (.error e, tr) => (.error e, tr)
      | (.ok cfg, tr) => (.ok (dictUpdate [("type", .str TYPE_EM)] cfg), tr)
    else if strStartsWith _device_id "m2w_83" then
      match requestGetDict o "M2w_config.Get" tr with
      | (.error e, tr) => (.error e, tr)
      | (.ok cfg, tr) => (.ok (dictUpdate [("type", .str TYPE_3EM)] cfg), tr)
    else
      (.error (.deviceError "Unknown device_id"), tr)
  | some _ =>
    (.error (.attributeError "startswith"), tr)

end Device

/-- Shallow embedding of `_interpret_answer`
(tests/test_online_devices.py lines 138-148): a payload with an `error`
key is a failure; otherwise a `result` key is compared with `== True`;
a payload with neither key is a failure. -/
def _interpret_answer (answer : PyDict) : Bool :=
  if dictContains answer "error" then
    false
  else
    match dictGet answer "result" with
    | some v => pyEqTrue v
    | Option.none => false

/-- Modelled from the spec: the exception-class hierarchy behind the error
taxonomy.  The client imports `DeviceError` and `DeviceConnectionError`
from `lektricowifi.exceptions`, but that module as present defines only
`ChargerError` and `ChargerConnectionError`, so the classes of the two
imported exceptions are missing from the sources; the spec (sections 4.3
and 7) states that the unknown-family failure is a "`ValueError`-class"
`ValidationError`, so `DeviceError` is modelled as deriving from
`ValueError`, with `DeviceConnectionError` deriving from `DeviceError` in
the usual pattern of this library family.  Builtin ancestries follow
Python. -/
inductive ExcClass where
  | baseException
  | exceptionCls
  | valueErrorCls
  | lookupErrorCls
  | httpErrorCls
  | deviceErrorCls
  | deviceConnectionErrorCls
  | httpStatusErrorCls
  | typeErrorCls
  | keyErrorCls
  | indexErrorCls
  | attributeErrorCls
  | jsonDecodeErrorCls
  deriving Repr, DecidableEq

/-- Modelled from the spec: the ancestor classes of each exception class
(the class itself included), per the hierarchy described with `ExcClass`. -/
def ExcClass.ancestors : ExcClass → List ExcClass
  | .baseException => [.baseException]
  | .exceptionCls => [.exceptionCls, .baseException]
  | .valueErrorCls => [.valueErrorCls, .exceptionCls, .baseException]
  | .lookupErrorCls => [.lookupErrorCls, .exceptionCls, .baseException]
  | .httpErrorCls => [.httpErrorCls, .exceptionCls, .baseException]
  | .deviceErrorCls =>
      [.deviceErrorCls, .valueErrorCls, .exceptionCls, .baseException]
  | .deviceConnectionErrorCls =>
      [.deviceConnectionErrorCls, .deviceErrorCls, .valueErrorCls,
       .exceptionCls, .baseException]
  | .httpStatusErrorCls =>
      [.httpStatusErrorCls, .httpErrorCls, .exceptionCls, .baseException]
  | .typeErrorCls => [.typeErrorCls, .exceptionCls, .baseException]
  | .keyErrorCls =>
      [.keyErrorCls, .lookupErrorCls, .exceptionCls, .baseException]
  | .indexErrorCls =>
      [.indexErrorCls, .lookupErrorCls, .exceptionCls, .baseException]
  | .attributeErrorCls => [.attributeErrorCls, .exceptionCls, .baseException]
  | .jsonDecodeErrorCls =>
      [.jsonDecodeErrorCls, .valueErrorCls, .exceptionCls, .baseException]

/-- `isinstance`-style subclass test over the modelled hierarchy. -/
def ExcClass.isSubclassOf (c d : ExcClass) : Bool :=
  d ∈ c.ancestors

/-- The class of each raised exception value. -/
def PyErr.cls : PyErr → ExcClass
  | .deviceConnectionError _ => .deviceConnectionErrorCls
  | .deviceError _ => .deviceErrorCls
  | .httpStatusError _ => .httpStatusErrorCls
  | .jsonDecodeError => .jsonDecodeErrorCls
  | .typeError _ => .typeErrorCls
  | .keyError _ => .keyErrorCls
  | .indexError => .indexErrorCls
  | .valueError _ => .valueErrorCls
  | .attributeError _ => .attributeErrorCls

/-! ### Concrete device behaviors used as test fixtures -/

/-- A charger whose merged status reports no active errors. -/
def oracleChargerNoErrors : Oracle := fun uri =>
  if uri = "charger_info.get" then
    .response ⟨200, "application/json", "",
      some (.dict [("has_active_errors", .bool false),
                   ("extended_charger_state", .str "A")])⟩
  else if uri = "app_config.get" then
    .response ⟨200, "application/json", "",
      some (.dict [("headless", .bool false)])⟩
  else if uri = "dynamic_current.get" then
    .response ⟨200, "application/json", "",
      some (.dict [("dynamic_current", .int 32)])⟩
  else
    .response ⟨500, "text/plain", "not found", Option.none⟩

/-- A charger whose merged status reports active errors, with an
active-errors endpoint answering a fault set. -/
def oracleChargerErrors : Oracle := fun uri =>
  if uri = "charger_info.get" then
    .response ⟨200, "application/json", "",
      some (.dict [("has_active_errors", .bool true),
                   ("extended_charger_state", .str "E")])⟩
  else if uri = "app_config.get" then
    .response ⟨200, "application/json", "",
      some (.dict [("headless", .bool true)])⟩
  else if uri = "active_errors.get" then
    .response ⟨200, "application/json", "",
      some (.dict [("state_e_activated", .bool false),
                   ("overtemp", .bool true)])⟩
  else if uri = "dynamic_current.get" then
    .response ⟨200, "application/json", "",
      some (.dict [("dynamic_current", .int 16)])⟩
  else
    .response ⟨500, "text/plain", "not found", Option.none⟩

/-- A device whose identity string is `"1p7k"`: it bears a known family
prefix but contains no `_` separator at all. -/
def oracleNoSeparatorId : Oracle := fun uri =>
  if uri = "Device_id.Get" then
    .response ⟨200, "application/json", "",
      some (.dict [("device_id", .str "1p7k")])⟩
  else if uri = "charger_config.get" then
    .response ⟨200, "application/json", "",
      some (.dict [("serial_number", .int 500006),
                   ("board_revision", .str "B")])⟩
  else
    .response ⟨500, "text/plain", "not found", Option.none⟩

/-- A device whose identity string matches none of the family prefixes. -/
def oracleUnknownId : Oracle := fun uri =>
  if uri = "Device_id.Get" then
    .response ⟨200, "application/json", "",
      some (.dict [("device_id", .str "x9_500123")])⟩
  else
    .response ⟨500, "text/plain", "not found", Option.none⟩

/-! ### Lemmas about the dict operations and the request trace -/

theorem dictGet_set_self (d : PyDict) (k : String) (v : PyVal) :
    dictGet (dictSet d k v) k = some v := by
  induction d with
  | nil => simp [dictSet, dictGet]
  | cons kv rest ih =>
      obtain ⟨k', v'⟩ := kv
      by_cases h : k' = k <;> simp [dictSet, dictGet, h, ih]

theorem dictGet_set_ne (d : PyDict) (k k' : String) (v : PyVal)
    (h : k' ≠ k) : dictGet (dictSet d k v) k' = dictGet d k' := by
  have hne : ¬ (k = k') := fun hh => h hh.symm
  induction d with
  | nil => simp [dictSet, dictGet, hne]
  | cons kv rest ih =>
      obtain ⟨k₀, v₀⟩ := kv
      by_cases h0 : k₀ = k
      · subst h0
        simp [dictSet, dictGet, hne]
      · simp [dictSet, dictGet, h0, ih]

theorem dictContains_set_ne (d : PyDict) (k k' : String) (v : PyVal)
    (h : k' ≠ k) : dictContains (dictSet d k v) k' = dictContains d k' := by
  simp [dictContains, dictGet_set_ne d k k' v h]

theorem dictContains_eq_mem_keys (d : PyDict) (k : String) :
    dictContains d k = true ↔ k ∈ dictKeys d := by
  induction d with
  | nil => simp [dictContains, dictGet, dictKeys]
  | cons kv rest ih =>
      obtain ⟨k', v'⟩ := kv
      by_cases h : k' = k
      · subst h
        simp [dictContains, dictGet, dictKeys]
      · have hne : ¬ (k = k') := fun hh => h hh.symm
        simp only [dictContains, dictGet, if_neg h, dictKeys, List.map_cons,
          List.mem_cons, hne, false_or]
        exact ih

theorem dictGet_update_not_contains (other d : PyDict) (k : String)
    (h : dictContains other k = false) :
    dictGet (dictUpdate d other) k = dictGet d k := by
  induction other generalizing d with
  | nil => simp [dictUpdate]
  | cons kv rest ih =>
      obtain ⟨k₀, v₀⟩ := kv
      have h0 : k₀ ≠ k := by
        intro hk
        simp [dictContains, dictGet, hk] at h
      have h1 : dictContains rest k = false := by
        simpa [dictContains, dictGet, h0] using h
      have : dictUpdate d ((k₀, v₀) :: rest) = dictUpdate (dictSet d k₀ v₀) rest := by
        simp [dictUpdate]
      rw [this, ih (dictSet d k₀ v₀) h1, dictGet_set_ne d k₀ k v₀ (by simpa using Ne.symm h0)]

theorem dictGet_update_of_contains (other d : PyDict)
    (hnd : (dictKeys other).Nodup) (k : String)
    (h : dictContains other k = true) :
    dictGet (dictUpdate d other) k = dictGet other k := by
  induction other generalizing d with
  | nil => simp [dictContains, dictGet] at h
  | cons kv rest ih =>
      obtain ⟨k₀, v₀⟩ := kv
      have hstep : dictUpdate d ((k₀, v₀) :: rest) = dictUpdate (dictSet d k₀ v₀) rest := by
        simp [dictUpdate]
      have hnd2 : k₀ ∉ dictKeys rest ∧ (dictKeys rest).Nodup := by
        rw [dictKeys, List.map_cons, List.nodup_cons] at hnd
        exact hnd
      by_cases h0 : k₀ = k
      · subst h0
        have hc : dictContains rest k₀ = false := by
          rcases hb : dictContains rest k₀ with _ | _
          · rfl
          · exact absurd ((dictContains_eq_mem_keys rest k₀).mp hb) hnd2.1
        rw [hstep, dictGet_update_not_contains rest (dictSet d k₀ v₀) k₀ hc,
            dictGet_set_self]
        simp [dictGet]
      · have hc : dictContains rest k = true := by
          simpa [dictContains, dictGet, h0] using h
        rw [hstep, ih (dictSet d k₀ v₀) hnd2.2 hc]
        simp [dictGet, h0]

theorem requestGetDict_trace (o : Oracle) (uri : String) (tr : List String) :
    (requestGetDict o uri tr).2 = tr ++ [uri] := by
  unfold requestGetDict
  rcases Device.request (o uri) with e | v
  · rfl
  · cases v <;> rfl

theorem chargerTail_trace (o : Oracle) (data : PyDict) (tr : List String) :
    (Device.chargerTail o data tr).2 = tr ++ ["dynamic_current.get"] := by
  unfold Device.chargerTail requestGetDict
  cases hreq : Device.request (o "dynamic_current.get") with
  | error e => rfl
  | ok v =>
      cases v with
      | bool b => rfl
      | int i => rfl
      | str s => rfl
      | list xs => rfl
      | dict es => split <;> split <;> simp_all <;> split <;> rfl

theorem faultStage_of_false (o : Oracle) (data : PyDict) (tr : List String)
    (h : dictGet data "has_active_errors" = some (.bool false)) :
    Device.faultStage o data tr =
      (.ok (dictUpdate data Device.allFalseFaultSet), tr) := by
  unfold Device.faultStage getKey
  rw [h]
  rfl

theorem faultStage_of_true (o : Oracle) (data : PyDict) (tr : List String)
    (es : List (String × PyVal))
    (h : dictGet data "has_active_errors" = some (.bool true))
    (hr : Device.request (o "active_errors.get") = .ok (.dict es)) :
    Device.faultStage o data tr =
      (.ok (dictUpdate data es), tr ++ ["active_errors.get"]) := by
  unfold Device.faultStage getKey requestGetDict
  rw [h, hr]
  rfl

theorem faultStage_trace_of_true (o : Oracle) (data : PyDict)
    (tr : List String)
    (h : dictGet data "has_active_errors" = some (.bool true)) :
    (Device.faultStage o data tr).2 = tr ++ ["active_errors.get"] := by
  unfold Device.faultStage getKey requestGetDict
  rw [h]
  cases Device.request (o "active_errors.get") with
  | error e => rfl
  | ok v => cases v <;> rfl

theorem chargerPipeline_eq (o : Oracle) (e1 e2 : PyDict)
    (h1 : Device.request (o "charger_info.get") = Except.ok (.dict e1))
    (h2 : Device.request (o "app_config.get") = Except.ok (.dict e2)) :
    Device.chargerPipeline o [] =
      (match Device.faultStage o (dictUpdate e1 e2)
          ["charger_info.get", "app_config.get"] with
       | (.error e, tr) => (.error e, tr)
       | (.ok data, tr) => Device.chargerTail o data tr) := by
  unfold Device.chargerPipeline requestGetDict
  rw [h1, h2]
  rfl

/-! ### The claims -/

/-- C1: on an HTTP response whose status code indicates failure, the
transport operation `Device._request` does not fail with
`DeviceConnectionError`: `response.raise_for_status()` raises
`httpx.HTTPStatusError`, which matches none of the `except` clauses and
escapes unconverted (here evaluated at a 500 and at a 404 response), and
`httpx.HTTPStatusError` is not a `DeviceConnectionError` subclass. -/
theorem request_non2xx_escapes_httpStatusError :
    Device.request (.response ⟨500, "application/json", "", Option.none⟩) =
      .error (.httpStatusError 500) ∧
    Device.request (.response ⟨404, "text/plain", "Not Found", Option.none⟩) =
      .error (.httpStatusError 404) ∧
    (PyErr.httpStatusError 500).cls.isSubclassOf .deviceConnectionErrorCls
      = false :=
  ⟨rfl, rfl, by decide⟩

/-- C9: on an HTTP 200 response whose content type is `text/html`,
`Device._request` fails with `TypeError` — `response.text` is a `str`
property in httpx, so `await response.text()` raises before the intended
`DeviceError` carrying the content type and body can be constructed — and
`TypeError` is not a `DeviceError` subclass. -/
theorem request_non_json_raises_typeError :
    Device.request
        (.response ⟨200, "text/html", "<html>error</html>", Option.none⟩) =
      .error (.typeError "'str' object is not callable") ∧
    (PyErr.typeError "'str' object is not callable").cls.isSubclassOf
      .deviceErrorCls = false :=
  ⟨rfl, by decide⟩

/-- C5: charging-state decoding `_put_readable_format` is a pure total
function: every string outside the known raw codes is returned verbatim
without any error, and each known raw code maps to its named state
(A to available, B to connected, B_AUTH to need_auth, B_PAUSE to paused,
C and D to charging, E and F to error, OTA to updating_firmware). -/
theorem put_readable_format_total :
    (∀ s : String,
       s ∉ ["A", "B", "B_AUTH", "B_PAUSE", "C", "D", "E", "F", "OTA"] →
       Device._put_readable_format (.str s) = .str s) ∧
    Device._put_readable_format (.str "A") = .str "available" ∧
    Device._put_readable_format (.str "B") = .str "connected" ∧
    Device._put_readable_format (.str "B_AUTH") = .str "need_auth" ∧
    Device._put_readable_format (.str "B_PAUSE") = .str "paused" ∧
    Device._put_readable_format (.str "C") = .str "charging" ∧
    Device._put_readable_format (.str "D") = .str "charging" ∧
    Device._put_readable_format (.str "E") = .str "error" ∧
    Device._put_readable_format (.str "F") = .str "error" ∧
    Device._put_readable_format (.str "OTA") = .str "updating_firmware" := by
  refine ⟨?_, rfl, rfl, rfl, rfl, rfl, rfl, rfl, rfl, rfl⟩
  intro s hs
  simp only [List.mem_cons, List.not_mem_nil, or_false, not_or] at hs
  obtain ⟨h1, h2, h3, h4, h5, h6, h7, h8, h9⟩ := hs
  simp [Device._put_readable_format, h1, h2, h3, h4, h5, h6, h7, h8, h9]

/-- C5 witness: the unrecognized raw code `"Z"` passes through verbatim. -/
theorem put_readable_format_total_witness :
    Device._put_readable_format (.str "Z") = .str "Z" :=
  put_readable_format_total.1 "Z" (by decide)

/-- C7: the `_interpret_answer` truth table: a payload without an `error`
key whose `result` is boolean true is accepted; any payload with an
`error` key is rejected; any payload whose `result` is boolean false is
rejected; a payload with neither key is rejected. -/
theorem interpret_answer_truth_table (d : PyDict) :
    (dictContains d "error" = false →
       dictGet d "result" = some (.bool true) → _interpret_answer d = true) ∧
    (dictContains d "error" = true → _interpret_answer d = false) ∧
    (dictGet d "result" = some (.bool false) → _interpret_answer d = false) ∧
    (dictContains d "error" = false → dictContains d "result" = false →
       _interpret_answer d = false) := by
  refine ⟨fun he hr => ?_, fun he => ?_, fun hr => ?_, fun he hr => ?_⟩
  · simp [_interpret_answer, he, hr, pyEqTrue]
  · simp [_interpret_answer, he]
  · rcases hb : dictContains d "error" with _ | _ <;>
      simp [_interpret_answer, hb, hr, pyEqTrue]
  · have hg : dictGet d "result" = Option.none := by
      rcases hg : dictGet d "result" with _ | v
      · rfl
      · rw [dictContains, hg] at hr
        simp at hr
    simp [_interpret_answer, he, hg]

/-- C7 witness: the four rows of the truth table at concrete payloads. -/
theorem interpret_answer_truth_table_witness :
    _interpret_answer [("result", PyVal.bool true)] = true ∧
    _interpret_answer [("error", PyVal.dict [("code", PyVal.int (-6))])]
      = false ∧
    _interpret_answer [("result", PyVal.bool false)] = false ∧
    _interpret_answer [] = false :=
  ⟨(interpret_answer_truth_table _).1 rfl rfl,
   (interpret_answer_truth_table _).2.1 rfl,
   (interpret_answer_truth_table _).2.2.1 rfl,
   (interpret_answer_truth_table _).2.2.2 rfl rfl⟩

/-- C10: a payload carrying both an `error` key and `result` equal to
boolean true is rejected by `_interpret_answer`: the `error` check runs
first and takes precedence. -/
theorem interpret_answer_error_precedence (d : PyDict) (v : PyVal)
    (he : dictGet d "error" = some v)
    (hr : dictGet d "result" = some (.bool true)) :
    _interpret_answer d = false := by
  have hc : dictContains d "error" = true := by
    rw [dictContains, he]
    rfl
  simp [_interpret_answer, hc]

/-- C10 witness: a concrete acknowledgement carrying both keys. -/
theorem interpret_answer_error_precedence_witness :
    _interpret_answer
      [("error", PyVal.dict [("code", PyVal.int (-6)),
                             ("message", PyVal.str "Error uknown key.")]),
       ("result", PyVal.bool true)] = false :=
  interpret_answer_error_precedence _
    (PyVal.dict [("code", PyVal.int (-6)),
                 ("message", PyVal.str "Error uknown key.")]) rfl rfl

/-- C8: for a device-family argument outside the four supported families,
`device_info` fails with `DeviceError("Unknown device_id")` immediately,
requesting no endpoint; per the spec-modelled hierarchy, `DeviceError` is
a `ValueError` subclass. -/
theorem device_info_unknown_family (o : Oracle) (t : String)
    (h1 : t ≠ Device.TYPE_1P7K) (h2 : t ≠ Device.TYPE_3P22K)
    (h3 : t ≠ Device.TYPE_EM) (h4 : t ≠ Device.TYPE_3EM) :
    Device.device_info o t [] =
      (.error (.deviceError "Unknown device_id"), []) ∧
    (PyErr.deviceError "Unknown device_id").cls.isSubclassOf .valueErrorCls
      = true := by
  refine ⟨?_, by decide⟩
  unfold Device.device_info
  simp [h1, h2, h3, h4]

/-- C8 witness: the family tag `"m2w"` is not supported; no transport event
is ever consumed. -/
theorem device_info_unknown_family_witness :
    Device.device_info (fun _ => TransportEvent.timeoutError) "m2w" [] =
      (.error (.deviceError "Unknown device_id"), []) :=
  (device_info_unknown_family (fun _ => TransportEvent.timeoutError) "m2w"
    (by decide) (by decide) (by decide) (by decide)).1

/-- C2 counterexample: the identity string `"1p7k"` contains no separator
at all, yet family detection succeeds — `device_config` dispatches on
`startswith` prefixes and performs no separator check — returning a
settings record instead of a `ProtocolError` for a malformed
identifier. -/
theorem device_config_no_separator_counterexample :
    Device.device_config oracleNoSeparatorId [] =
      (.ok [("type", .str "1p7k"), ("serial_number", .int 500006),
            ("board_revision", .str "B")],
       ["Device_id.Get", "charger_config.get"]) := rfl

/-- C2 amended: family detection matches the identity string by
`startswith` prefix against the fixed table (`1p7k`, `3p22k`, `m2w_81`,
`m2w_83`); an identity matching none of the prefixes fails with
`DeviceError("Unknown device_id")` after only the identity request; no
separate malformed-identifier check exists, so an identity without a
separator succeeds whenever a known prefix matches (see the
counterexample). -/
theorem device_config_unknown_prefix (o : Oracle) (e1 : PyDict) (s : String)
    (h0 : Device.request (o "Device_id.Get") = .ok (.dict e1))
    (h1 : dictGet e1 "device_id" = some (.str s))
    (h2 : strStartsWith s Device.TYPE_1P7K = false)
    (h3 : strStartsWith s Device.TYPE_3P22K = false)
    (h4 : strStartsWith s "m2w_81" = false)
    (h5 : strStartsWith s "m2w_83" = false) :
    Device.device_config o [] =
      (.error (.deviceError "Unknown device_id"), ["Device_id.Get"]) := by
  unfold Device.device_config requestGetDict
  rw [h0]
  simp only [h1, h2, h3, h4, h5]
  rfl

/-- C2 amended witness: the identity `"x9_500123"` matches no family
prefix. -/
theorem device_config_unknown_prefix_witness :
    Device.device_config oracleUnknownId [] =
      (.error (.deviceError "Unknown device_id"), ["Device_id.Get"]) :=
  device_config_unknown_prefix oracleUnknownId
    [("device_id", PyVal.str "x9_500123")] "x9_500123"
    rfl rfl rfl rfl rfl rfl

/-- C3 counterexample: the index `-1` lies outside `[0,7]`, yet the
limit-reason decode surfaces no error: Python negative indexing wraps
around and returns table entry 7, `"ocpp"`. -/
theorem decode_limit_reason_negative_counterexample :
    Device.decodeLimitReason [("current_limit_reason", .int (-1))] =
      .ok [("current_limit_reason", .str "ocpp")] := rfl

/-- C3 amended: the limit-reason decode of `device_info` maps index `i` in
`[0,7]` to entry `i` of the fixed table, defaults an absent field to entry
0 (`no_limit`), and surfaces an `IndexError` for `i ≥ 8` and for
`i < -8`; but an index in `[-8,-1]` wraps around Python-style and returns
entry `8 + i` instead of surfacing an error. -/
theorem decode_limit_reason_amended (d : PyDict) :
    (dictGet d "current_limit_reason" = Option.none →
       Device.decodeLimitReason d =
         .ok (dictSet d "current_limit_reason" (.str "no_limit"))) ∧
    (∀ i : Int, dictGet d "current_limit_reason" = some (.int i) →
       (∀ s, 0 ≤ i →
          Device.CURRENT_LIMIT_REASON.get? i.toNat = some s →
          Device.decodeLimitReason d =
            .ok (dictSet d "current_limit_reason" (.str s))) ∧
       (8 ≤ i → Device.decodeLimitReason d = .error .indexError) ∧
       (i < -8 → Device.decodeLimitReason d = .error .indexError) ∧
       (∀ s, -8 ≤ i → i < 0 →
          Device.CURRENT_LIMIT_REASON.get? (8 + i).toNat = some s →
          Device.decodeLimitReason d =
            .ok (dictSet d "current_limit_reason" (.str s)))) := by
  constructor
  · intro h
    have hc : dictContains d "current_limit_reason" = false := by
      rw [dictContains, h]
      rfl
    unfold Device.decodeLimitReason
    rw [hc]
    rfl
  · intro i h
    have hc : dictContains d "current_limit_reason" = true := by
      rw [dictContains, h]
      rfl
    have hstep : Device.decodeLimitReason d =
        (match pyIndex Device.CURRENT_LIMIT_REASON i with
         | some s => .ok (dictSet d "current_limit_reason" (.str s))
         | Option.none => .error .indexError) := by
      unfold Device.decodeLimitReason getKey
      rw [hc, h]
      rfl
    have hlen : ((Device.CURRENT_LIMIT_REASON.length : Nat) : Int) = 8 := by
      simp [Device.CURRENT_LIMIT_REASON]
    refine ⟨fun s h0 hget => ?_, fun h8 => ?_, fun hlo => ?_,
            fun s hge hneg hget => ?_⟩
    · rw [hstep]
      have hnlt : ¬ i < 0 := not_lt.mpr h0
      simp only [pyIndex, if_neg hnlt, if_pos h0, hget]
    · rw [hstep]
      have hnlt : ¬ i < 0 := by omega
      have hge0 : (0 : Int) ≤ i := by omega
      have hnone : Device.CURRENT_LIMIT_REASON.get? i.toNat = Option.none := by
        refine List.get?_eq_none.mpr ?_
        have : Device.CURRENT_LIMIT_REASON.length = 8 := by
          simp [Device.CURRENT_LIMIT_REASON]
        omega
      simp only [pyIndex, if_neg hnlt, if_pos hge0, hnone]
    · rw [hstep]
      have hlt : i < 0 := by omega
      have hn : ¬ (0 : Int) ≤ (Device.CURRENT_LIMIT_REASON.length : Int) + i := by
        rw [hlen]
        omega
      simp only [pyIndex, if_pos hlt, if_neg hn]
    · rw [hstep]
      have hpos : (0 : Int) ≤ (Device.CURRENT_LIMIT_REASON.length : Int) + i := by
        rw [hlen]
        omega
      have harg : ((Device.CURRENT_LIMIT_REASON.length : Int) + i).toNat
          = ((8 : Int) + i).toNat := by
        rw [hlen]
      simp only [pyIndex, if_pos hneg, if_pos hpos, harg, hget]

/-- C3 amended witness: index 3 decodes to table entry 3,
`"dynamic_limit"`. -/
theorem decode_limit_reason_amended_witness :
    Device.decodeLimitReason [("current_limit_reason", PyVal.int 3)] =
      .ok (dictSet [("current_limit_reason", PyVal.int 3)]
            "current_limit_reason" (.str "dynamic_limit")) :=
  ((decode_limit_reason_amended
      [("current_limit_reason", PyVal.int 3)]).2 3 rfl).1
    "dynamic_limit" (by decide) rfl

/-- C6 counterexample: a payload that already contains all three canonical
field names is not left unchanged by the backfill step —
`current_limit_reason` is rewritten from index `0` to its label
`"no_limit"` — and running the step a second time fails
(`int("no_limit")` raises `ValueError`), so two runs do not yield the
result of one. -/
theorem backfill_not_idempotent_counterexample :
    Device.backfillStep
        [("current_limit_reason", .int 0), ("state_e_activated", .bool false),
         ("relay_mode", .int (-1))] =
      .ok [("current_limit_reason", .str "no_limit"),
           ("state_e_activated", .bool false), ("relay_mode", .int (-1))] ∧
    Device.backfillStep
        [("current_limit_reason", .str "no_limit"),
         ("state_e_activated", .bool false), ("relay_mode", .int (-1))] =
      .error (.valueError "no_limit") ∧
    Device.backfillStep
        [("current_limit_reason", .int 0), ("state_e_activated", .bool false),
         ("relay_mode", .int (-1))] ≠
      .ok [("current_limit_reason", .int 0), ("state_e_activated", .bool false),
           ("relay_mode", .int (-1))] := by
  refine ⟨rfl, rfl, fun hcontra => ?_⟩
  rw [show Device.backfillStep
        [("current_limit_reason", .int 0), ("state_e_activated", .bool false),
         ("relay_mode", .int (-1))] =
      .ok [("current_limit_reason", .str "no_limit"),
           ("state_e_activated", .bool false), ("relay_mode", .int (-1))]
    from rfl] at hcontra
  simp at hcontra

/-- C6 amended: on a payload already containing the three canonical field
names, the two compatibility backfills (`state_e_activated`,
`relay_mode`) do not fire and every key other than `current_limit_reason`
keeps its value; `current_limit_reason` itself is always rewritten to the
decoded string label, so the step is not the identity on such payloads and
is not idempotent (the second run fails re-decoding the label, as the
counterexample shows). -/
theorem backfill_canonical_touches_only_limit_reason (d d' : PyDict)
    (hclr : dictContains d "current_limit_reason" = true)
    (hse : dictContains d "state_e_activated" = true)
    (hrm : dictContains d "relay_mode" = true)
    (h : Device.backfillStep d = .ok d') :
    (∀ k, k ≠ "current_limit_reason" → dictGet d' k = dictGet d k) ∧
    ∃ s, dictGet d' "current_limit_reason" = some (.str s) := by
  obtain ⟨v, hv⟩ : ∃ v, dictGet d "current_limit_reason" = some v := by
    rcases hg : dictGet d "current_limit_reason" with _ | v
    · rw [dictContains, hg] at hclr
      simp at hclr
    · exact ⟨v, rfl⟩
  unfold Device.backfillStep Device.decodeLimitReason getKey at h
  rcases hpi : pyInt v with e | i
  · simp [hclr, hv, hpi] at h
  · rcases hix : pyIndex Device.CURRENT_LIMIT_REASON i with _ | s
    · simp [hclr, hv, hpi, hix] at h
    · have hse1 : dictContains (dictSet d "current_limit_reason" (.str s))
          "state_e_activated" = true := by
        rw [dictContains_set_ne d "current_limit_reason" "state_e_activated"
              (.str s) (by decide)]
        exact hse
      have hrm1 : dictContains (dictSet d "current_limit_reason" (.str s))
          "relay_mode" = true := by
        rw [dictContains_set_ne d "current_limit_reason" "relay_mode"
              (.str s) (by decide)]
        exact hrm
      simp [hclr, hv, hpi, hix, hse1, hrm1] at h
      subst h
      refine ⟨fun k hk => dictGet_set_ne d "current_limit_reason" k (.str s) hk,
              s, dictGet_set_self d "current_limit_reason" (.str s)⟩

/-- C6 amended witness: on a concrete canonical payload, the key
`state_e_activated` is unchanged by the backfill step. -/
theorem backfill_canonical_witness :
    dictGet [("current_limit_reason", PyVal.str "user_limit"),
             ("state_e_activated", PyVal.bool true),
             ("relay_mode", PyVal.int 0)] "state_e_activated" =
      dictGet [("current_limit_reason", PyVal.int 2),
               ("state_e_activated", PyVal.bool true),
               ("relay_mode", PyVal.int 0)] "state_e_activated" :=
  (backfill_canonical_touches_only_limit_reason
      [("current_limit_reason", PyVal.int 2),
       ("state_e_activated", PyVal.bool true), ("relay_mode", PyVal.int 0)]
      [("current_limit_reason", PyVal.str "user_limit"),
       ("state_e_activated", PyVal.bool true), ("relay_mode", PyVal.int 0)]
      rfl rfl rfl rfl).1 "state_e_activated" (by decide)

/-- C4: in the charger branch of `device_info`, when the merged
status/app-config payload has `has_active_errors` equal to `false`, the
all-false fault set of ten flags is synthesized locally and merged and the
`active_errors.get` endpoint is never requested; when it is `true`, the
`active_errors.get` endpoint is requested exactly once and its fields are
merged into the record (later bindings overriding earlier ones). -/
theorem device_info_fault_set (o : Oracle) (e1 e2 : PyDict) (b : Bool)
    (h1 : Device.request (o "charger_info.get") = Except.ok (.dict e1))
    (h2 : Device.request (o "app_config.get") = Except.ok (.dict e2))
    (h3 : dictGet (dictUpdate e1 e2) "has_active_errors" = some (.bool b)) :
    (b = false →
       (Device.chargerPipeline o []).2.count "active_errors.get" = 0 ∧
       Device.faultStage o (dictUpdate e1 e2)
           ["charger_info.get", "app_config.get"] =
         (.ok (dictUpdate (dictUpdate e1 e2) Device.allFalseFaultSet),
          ["charger_info.get", "app_config.get"]) ∧
       ∀ k ∈ Device.faultKeys,
         dictGet (dictUpdate (dictUpdate e1 e2) Device.allFalseFaultSet) k =
           some (.bool false)) ∧
    (b = true →
       (Device.chargerPipeline o []).2.count "active_errors.get" = 1 ∧
       ∀ es, Device.request (o "active_errors.get") = Except.ok (.dict es) →
         Device.faultStage o (dictUpdate e1 e2)
             ["charger_info.get", "app_config.get"] =
           (.ok (dictUpdate (dictUpdate e1 e2) es),
            ["charger_info.get", "app_config.get", "active_errors.get"]) ∧
         ((dictKeys es).Nodup →
           ∀ k, dictContains es k = true →
             dictGet (dictUpdate (dictUpdate e1 e2) es) k = dictGet es k)) := by
  have hpipe := chargerPipeline_eq o e1 e2 h1 h2
  constructor
  · intro hb
    subst hb
    have hfs := faultStage_of_false o (dictUpdate e1 e2)
      ["charger_info.get", "app_config.get"] h3
    refine ⟨?_, hfs, ?_⟩
    · have htr : (Device.chargerPipeline o []).2 =
          ["charger_info.get", "app_config.get", "dynamic_current.get"] := by
        rw [hpipe, hfs]
        exact chargerTail_trace o _ _
      rw [htr]
      decide
    · intro k hk
      have hnd : (dictKeys Device.allFalseFaultSet).Nodup := by decide
      fin_cases hk <;>
        rw [dictGet_update_of_contains Device.allFalseFaultSet
              (dictUpdate e1 e2) hnd _ (by decide)] <;> rfl
  · intro hb
    subst hb
    constructor
    · have htr : (Device.chargerPipeline o []).2 =
            ["charger_info.get", "app_config.get", "active_errors.get"] ∨
          (Device.chargerPipeline o []).2 =
            ["charger_info.get", "app_config.get", "active_errors.get",
             "dynamic_current.get"] := by
        rw [hpipe]
        rcases hfs : Device.faultStage o (dictUpdate e1 e2)
            ["charger_info.get", "app_config.get"] with ⟨res, tr2⟩
        have htr2 : tr2 =
            ["charger_info.get", "app_config.get", "active_errors.get"] := by
          have := faultStage_trace_of_true o (dictUpdate e1 e2)
            ["charger_info.get", "app_config.get"] h3
          rw [hfs] at this
          exact this
        subst htr2
        rcases res with e | data
        · exact Or.inl rfl
        · exact Or.inr (chargerTail_trace o data _)
      rcases htr with htr | htr <;> rw [htr] <;> decide
    · intro es hes
      refine ⟨faultStage_of_true o (dictUpdate e1 e2)
        ["charger_info.get", "app_config.get"] es h3 hes, fun hnd k hk => ?_⟩
      exact dictGet_update_of_contains es (dictUpdate e1 e2) hnd k hk

/-- C4 witness: with a no-errors charger the active-errors endpoint is
never requested, and with an erroring charger it is requested exactly
once. -/
theorem device_info_fault_set_witness :
    (Device.chargerPipeline oracleChargerNoErrors []).2.count
      "active_errors.get" = 0 ∧
    (Device.chargerPipeline oracleChargerErrors []).2.count
      "active_errors.get" = 1 :=
  ⟨((device_info_fault_set oracleChargerNoErrors
      [("has_active_errors", PyVal.bool false),
       ("extended_charger_state", PyVal.str "A")]
      [("headless", PyVal.bool false)] false rfl rfl rfl).1 rfl).1,
   ((device_info_fault_set oracleChargerErrors
      [("has_active_errors", PyVal.bool true),
       ("extended_charger_state", PyVal.str "E")]
      [("headless", PyVal.bool true)] true rfl rfl rfl).2 rfl).1⟩

end Lektrico
